import Mathlib

/-!
Shallow embedding of the admin-gating subsystem of the Portfolio repository
(`src/app.py` and `src/server.py`): client identification, sliding-window rate
limiting, failure-triggered lockout, credential verification, and the
`require_basic_auth` decorator that composes them.

Modelling conventions:
* Clock readings (`time.time()`) are modelled as integers (`Int`); every
  comparison the code performs on times is order-theoretic, so the integer
  model is faithful to the real-valued clock for the properties below.
* The module-level dictionaries `failed_attempts`, `lockouts`, `rate_windows`
  are modelled as total functions from identity strings; for the two
  list-valued stores an absent key is indistinguishable from the empty list
  (every read goes through `setdefault(ip, [])`), so absent ≡ `[]`.
  `lockouts` keeps an `Option` value because the code distinguishes a present
  entry from a deleted one (`del lockouts[ip]`).
* Python truthiness is modelled explicitly: `if expiry:` on a number is
  `expiry ≠ 0`, `if xff:` / `x or y` on strings test for the empty string.
* `bcrypt.checkpw` is an external library call; it is an oracle parameter of
  type `List Nat → List Nat → Except Unit Bool`, an `Except.error` outcome
  standing for a raised exception.
* `hmac.compare_digest` is modelled from its documented behaviour: on
  `bytes` it decides content equality; on `str` it requires both operands to
  be ASCII-only and raises `TypeError` otherwise.
-/

namespace Portfolio

/-- Point update of a string-keyed store (a Python dict entry assignment). -/
def upd {α : Type} (m : String → α) (k : String) (v : α) : String → α :=
  fun q => if q = k then v else m q

/-- The configuration the guard reads from the environment:
`ADMIN_USER`, `ADMIN_PW_HASH` (bytes, optional), `LOCKOUT_THRESHOLD`,
`LOCKOUT_PERIOD`, `RATE_LIMIT_WINDOW`, `RATE_LIMIT_MAX`
(src/app.py lines 58-69, src/server.py lines 45-56). -/
structure Config where
  ADMIN_USER : String
  ADMIN_PW_HASH : Option (List Nat)
  LOCKOUT_THRESHOLD : Nat
  LOCKOUT_PERIOD : Int
  RATE_LIMIT_WINDOW : Int
  RATE_LIMIT_MAX : Nat

/-- The three module-level in-memory stores
(src/app.py lines 87-89, src/server.py lines 66-68). -/
structure St where
  failed_attempts : String → List Int
  lockouts : String → Option Int
  rate_windows : String → List Int

/-- UTF-8 encoding of one unicode scalar value, each byte as a `Nat`
(the per-character layout of Python's `str.encode('utf-8')`). -/
def utf8Char (c : Char) : List Nat :=
  let n := c.toNat
  if n < 0x80 then [n]
  else if n < 0x800 then [0xC0 + n / 0x40, 0x80 + n % 0x40]
  else if n < 0x10000 then
    [0xE0 + n / 0x1000, 0x80 + n / 0x40 % 0x40, 0x80 + n % 0x40]
  else
    [0xF0 + n / 0x40000, 0x80 + n / 0x1000 % 0x40, 0x80 + n / 0x40 % 0x40,
      0x80 + n % 0x40]

/-- Python `s.encode('utf-8')` as a byte list. -/
def utf8 (s : String) : List Nat :=
  s.data.flatMap utf8Char

/-- `hmac.compare_digest` on two `bytes` values: content equality
(constant-time in the source; timing is not modelled). -/
def compare_digest_bytes (a b : List Nat) : Bool :=
  a == b

/-- Python ASCII test: every code point below 128. -/
def isAsciiStr (s : String) : Bool :=
  s.data.all (fun c => c.toNat < 128)

/-- `hmac.compare_digest` on two `str` values: per the CPython documentation
it accepts only ASCII strings and raises `TypeError` ("comparing strings with
non-ASCII characters is not supported") otherwise; on ASCII operands it
decides equality. -/
def compare_digest_str (a b : String) : Except Unit Bool :=
  if isAsciiStr a && isAsciiStr b then Except.ok (a == b) else Except.error ()

/-- `client_ip()` (src/app.py lines 94-99, src/server.py lines 73-77):
`request.remote_addr or 'unknown'`, with Python string truthiness. -/
def orUnknown (remote_addr : Option String) : String :=
  match remote_addr with
  | some s => if s ≠ "" then s else "unknown"
  | none => "unknown"

/-- An inbound request as the guard observes it: the `X-Forwarded-For`
header, the transport peer address, and the parsed Basic-Auth data. -/
structure AuthData where
  username : Option String
  password : Option String

structure Request where
  xff : Option String
  remote_addr : Option String
  auth : Option AuthData

/-- `client_ip()`: first comma-separated entry of a truthy `X-Forwarded-For`,
trimmed; else the peer address; else `"unknown"`. -/
def client_ip (req : Request) : String :=
  match req.xff with
  | some x => if x ≠ "" then ((x.splitOn ",").headD "").trim else orUnknown req.remote_addr
  | none => orUnknown req.remote_addr

/-- `is_locked(ip)` (src/app.py lines 101-108, src/server.py lines 79-86):
returns the boolean and the possibly-updated `lockouts` store.
`if expiry:` is Python numeric truthiness, hence the `expiry ≠ 0` test. -/
def is_locked (now : Int) (lockouts : String → Option Int) (ip : String) :
    Bool × (String → Option Int) :=
  match lockouts ip with
  | some expiry =>
    if expiry ≠ 0 then
      if now < expiry then (true, lockouts)
      else (false, upd lockouts ip none)
    else (false, lockouts)
  | none => (false, lockouts)

/-- Python slice `lst[-k:]`: the last `k` elements — except that `k = 0`
yields `lst[0:]`, the whole list. -/
def pySliceLast (lst : List Int) (k : Nat) : List Int :=
  if k = 0 then lst else lst.drop (lst.length - k)

/-- `record_failed(ip)` (src/app.py lines 110-121, src/server.py lines
88-99): append `now`, trim the history to the last `LOCKOUT_THRESHOLD * 2`
entries when it exceeds that length, count entries with
`now - t < LOCKOUT_PERIOD` in the trimmed list, and set
`lockouts[ip] = now + LOCKOUT_PERIOD` when the count reaches the
threshold. Returns the updated `failed_attempts` and `lockouts` stores. -/
def record_failed (cfg : Config) (now : Int) (fa : String → List Int)
    (lockouts : String → Option Int) (ip : String) :
    (String → List Int) × (String → Option Int) :=
  let lst := fa ip ++ [now]
  let lst2 := if lst.length > cfg.LOCKOUT_THRESHOLD * 2 then
      pySliceLast lst (cfg.LOCKOUT_THRESHOLD * 2)
    else lst
  let recent := lst2.filter (fun t => now - t < cfg.LOCKOUT_PERIOD)
  let lockouts2 := if recent.length ≥ cfg.LOCKOUT_THRESHOLD then
      upd lockouts ip (some (now + cfg.LOCKOUT_PERIOD))
    else lockouts
  (upd fa ip lst2, lockouts2)

/-- `rate_limit_ok(ip)` (src/app.py lines 123-129, src/server.py lines
101-107): append `now` to the identity's window, keep only timestamps with
`now - t <= RATE_LIMIT_WINDOW`, and admit iff the resulting length is at
most `RATE_LIMIT_MAX`. Returns the admit decision and the updated store. -/
def rate_limit_ok (cfg : Config) (now : Int) (rw : String → List Int)
    (ip : String) : Bool × (String → List Int) :=
  let window := (rw ip ++ [now]).filter (fun t => now - t ≤ cfg.RATE_LIMIT_WINDOW)
  (decide (window.length ≤ cfg.RATE_LIMIT_MAX), upd rw ip window)

/-- One `rate_limit_ok` call viewed on a single identity's window list:
the appended-and-filtered window paired with the admit decision
(`rate_limit_ok` is exactly this step plus the store write-back). -/
def limiterStep (cfg : Config) (w : List Int) (now : Int) : Bool × List Int :=
  let window := (w ++ [now]).filter (fun t => now - t ≤ cfg.RATE_LIMIT_WINDOW)
  (decide (window.length ≤ cfg.RATE_LIMIT_MAX), window)

/-- A sequence of `rate_limit_ok` calls for one identity at the given call
times: the admit decisions in order, and the final window. -/
def runLimiter (cfg : Config) (w : List Int) : List Int → List Bool × List Int
  | [] => ([], w)
  | t :: ts =>
    let st := limiterStep cfg w t
    let rest := runLimiter cfg st.2 ts
    (st.1 :: rest.1, rest.2)

/-- `check_password` in src/app.py lines 131-139: `False` when the
configured hash or the candidate is `None`, else `bcrypt.checkpw` under a
`try/except` that maps any exception to `False`. -/
def check_password_app (cfg : Config)
    (checkpw : List Nat → List Nat → Except Unit Bool)
    (plain_password : Option String) : Bool :=
  match cfg.ADMIN_PW_HASH, plain_password with
  | none, _ => false
  | some _, none => false
  | some h, some p =>
    match checkpw (utf8 p) h with
    | Except.ok b => b
    | Except.error _ => false

/-- `check_password` in src/server.py lines 109-116: `False` when the
configured hash is `None`, else `bcrypt.checkpw` under the same
`try/except`. -/
def check_password_server (cfg : Config)
    (checkpw : List Nat → List Nat → Except Unit Bool)
    (plain_password : String) : Bool :=
  match cfg.ADMIN_PW_HASH with
  | none => false
  | some h =>
    match checkpw (utf8 plain_password) h with
    | Except.ok b => b
    | Except.error _ => false

/-- The `__main__` entry gate (src/app.py lines 303-318, src/server.py
lines 234-249): with `--gen-hash` the process prints a hash and exits 0;
otherwise a missing `ADMIN_PW_HASH` exits 1 before the server starts;
otherwise startup proceeds. `Except.error c` is `SystemExit(c)`. -/
def main_startup (cfg : Config) (genHashArg : Option String) : Except Nat Unit :=
  match genHashArg with
  | some _ => Except.error 0
  | none =>
    match cfg.ADMIN_PW_HASH with
    | none => Except.error 1
    | some _ => Except.ok ()

/-- The guard's terminal outcomes (§4.5 of the design). -/
inductive Outcome
  | rateExceeded
  | locked
  | noCredentials
  | credentialMismatch
  | granted
deriving DecidableEq

/-- The HTTP-visible decision: proceed to the wrapped view, or reject with a
status, body, and optional `WWW-Authenticate` header. -/
inductive Decision
  | proceed
  | reject (status : Nat) (body : String) (wwwAuthenticate : Option String)
deriving DecidableEq

def basicRealm : String := "Basic realm=\"Admin Area\""

/-- The credential check of src/app.py lines 166-169: byte-level
`hmac.compare_digest` on the UTF-8 encodings (absent values replaced by `''`
via `or`), boolean-AND-ed with `check_password(auth.password or '')`;
both conjuncts are computed before the conjunction, as in the source. -/
def verify_app (cfg : Config) (checkpw : List Nat → List Nat → Except Unit Bool)
    (a : AuthData) : Bool :=
  let username_ok := compare_digest_bytes (utf8 (a.username.getD ""))
    (utf8 cfg.ADMIN_USER)
  let password_ok := check_password_app cfg checkpw (some (a.password.getD ""))
  username_ok && password_ok

/-- `require_basic_auth` of src/app.py lines 144-180, as a function from
(config, bcrypt oracle, clock, request, store state) to the outcome, the
HTTP decision, and the final store state. The clock readings taken inside
one request are modelled as a single instant `now`. -/
def require_basic_auth_app (cfg : Config)
    (checkpw : List Nat → List Nat → Except Unit Bool)
    (now : Int) (req : Request) (s : St) : (Outcome × Decision) × St :=
  let ip := client_ip req
  let rl := rate_limit_ok cfg now s.rate_windows ip
  let s1 : St := { s with rate_windows := rl.2 }
  if !rl.1 then
    ((Outcome.rateExceeded, Decision.reject 429 "Too many requests. Slow down." none), s1)
  else
    let lo := is_locked now s1.lockouts ip
    let s2 : St := { s1 with lockouts := lo.2 }
    if lo.1 then
      ((Outcome.locked,
        Decision.reject 403 "Temporarily blocked due to repeated failed attempts." none), s2)
    else
      match req.auth with
      | none =>
        ((Outcome.noCredentials,
          Decision.reject 401 "Authentication required" (some basicRealm)), s2)
      | some a =>
        if verify_app cfg checkpw a then
          ((Outcome.granted, Decision.proceed),
            { s2 with failed_attempts := upd s2.failed_attempts ip [] })
        else
          let rf := record_failed cfg now s2.failed_attempts s2.lockouts ip
          ((Outcome.credentialMismatch,
            Decision.reject 401 "Invalid credentials" (some basicRealm)),
            { s2 with failed_attempts := rf.1, lockouts := rf.2 })

/-- `require_basic_auth` of src/server.py lines 121-157. It differs from
the src/app.py version in the username comparison: `hmac.compare_digest` is
applied to the two strings directly, which raises `TypeError` when either
is not ASCII-only; the raised exception propagates out of the decorator
(`Except.error`), after the rate-window append and the lazy lockout-expiry
check have already mutated the stores. The success branch `if ip in
failed_attempts: del failed_attempts[ip]` coincides with clearing the
entry. -/
def require_basic_auth_server (cfg : Config)
    (checkpw : List Nat → List Nat → Except Unit Bool)
    (now : Int) (req : Request) (s : St) :
    Except Unit (Outcome × Decision) × St :=
  let ip := client_ip req
  let rl := rate_limit_ok cfg now s.rate_windows ip
  let s1 : St := { s with rate_windows := rl.2 }
  if !rl.1 then
    (Except.ok (Outcome.rateExceeded,
      Decision.reject 429 "Too many requests. Slow down." none), s1)
  else
    let lo := is_locked now s1.lockouts ip
    let s2 : St := { s1 with lockouts := lo.2 }
    if lo.1 then
      (Except.ok (Outcome.locked,
        Decision.reject 403 "Temporarily blocked due to repeated failed attempts." none), s2)
    else
      match req.auth with
      | none =>
        (Except.ok (Outcome.noCredentials,
          Decision.reject 401 "Authentication required" (some basicRealm)), s2)
      | some a =>
        match compare_digest_str (a.username.getD "") cfg.ADMIN_USER with
        | Except.error e => (Except.error e, s2)
        | Except.ok username_ok =>
          let password_ok := check_password_server cfg checkpw (a.password.getD "")
          if username_ok && password_ok then
            (Except.ok (Outcome.granted, Decision.proceed),
              { s2 with failed_attempts := upd s2.failed_attempts ip [] })
          else
            let rf := record_failed cfg now s2.failed_attempts s2.lockouts ip
            (Except.ok (Outcome.credentialMismatch,
              Decision.reject 401 "Invalid credentials" (some basicRealm)),
              { s2 with failed_attempts := rf.1, lockouts := rf.2 })

/-! ### Helper lemmas about the stores and `record_failed` -/

theorem upd_same {α : Type} (m : String → α) (k : String) (v : α) :
    upd m k v k = v := by
  simp [upd]

theorem upd_ne {α : Type} (m : String → α) {q k : String} (h : q ≠ k) (v : α) :
    upd m k v q = m q := by
  simp [upd, h]

theorem record_failed_fst (cfg : Config) (now : Int) (fa : String → List Int)
    (lockouts : String → Option Int) (ip : String) :
    (record_failed cfg now fa lockouts ip).1 ip =
      (if (fa ip ++ [now]).length > cfg.LOCKOUT_THRESHOLD * 2 then
        pySliceLast (fa ip ++ [now]) (cfg.LOCKOUT_THRESHOLD * 2)
      else fa ip ++ [now]) :=
  upd_same fa ip _

theorem record_failed_snd (cfg : Config) (now : Int) (fa : String → List Int)
    (lockouts : String → Option Int) (ip : String) :
    (record_failed cfg now fa lockouts ip).2 =
      (if cfg.LOCKOUT_THRESHOLD ≤
          (((record_failed cfg now fa lockouts ip).1 ip).filter
            (fun t => now - t < cfg.LOCKOUT_PERIOD)).length then
        upd lockouts ip (some (now + cfg.LOCKOUT_PERIOD))
      else lockouts) := by
  rw [record_failed_fst]
  rfl

theorem record_failed_fa_eq (cfg : Config) (now : Int) (fa : String → List Int)
    (lockouts : String → Option Int) (ip : String)
    (hT : 0 < cfg.LOCKOUT_THRESHOLD) :
    (record_failed cfg now fa lockouts ip).1 ip =
      (if (fa ip ++ [now]).length > cfg.LOCKOUT_THRESHOLD * 2 then
        (fa ip ++ [now]).drop ((fa ip ++ [now]).length - cfg.LOCKOUT_THRESHOLD * 2)
      else fa ip ++ [now]) := by
  have h2 : ¬ cfg.LOCKOUT_THRESHOLD * 2 = 0 := by omega
  rw [record_failed_fst]
  simp only [pySliceLast, h2, if_false, ite_false]

theorem record_failed_lock_eq (cfg : Config) (now : Int) (fa : String → List Int)
    (lockouts : String → Option Int) (ip : String) :
    (record_failed cfg now fa lockouts ip).2 ip =
      (if cfg.LOCKOUT_THRESHOLD ≤
          (((record_failed cfg now fa lockouts ip).1 ip).filter
            (fun t => now - t < cfg.LOCKOUT_PERIOD)).length then
        some (now + cfg.LOCKOUT_PERIOD)
      else lockouts ip) := by
  rw [record_failed_snd]
  by_cases h : cfg.LOCKOUT_THRESHOLD ≤
      (((record_failed cfg now fa lockouts ip).1 ip).filter
        (fun t => now - t < cfg.LOCKOUT_PERIOD)).length
  · rw [if_pos h, if_pos h, upd_same]
  · rw [if_neg h, if_neg h]

/-- C2: `record_failed` appends the current moment, prunes the history to the
last `2 × threshold` entries when it grows beyond that bound, counts the
entries of the pruned history lying within the trailing lockout period, and
unconditionally (re)sets `lockout_expiry = now + lockout_period_seconds`
whenever that count reaches the threshold — overwriting any prior expiry —
while leaving the expiry alone otherwise. Stated for a positive threshold
(when the threshold is zero, Python's `lst[-0:]` slice disables the prune). -/
theorem C2_record_failed_behaviour (cfg : Config) (now : Int)
    (fa : String → List Int) (lockouts : String → Option Int) (ip : String)
    (hT : 0 < cfg.LOCKOUT_THRESHOLD) :
    (record_failed cfg now fa lockouts ip).1 ip =
      (if (fa ip ++ [now]).length > cfg.LOCKOUT_THRESHOLD * 2 then
        (fa ip ++ [now]).drop ((fa ip ++ [now]).length - cfg.LOCKOUT_THRESHOLD * 2)
      else fa ip ++ [now]) ∧
    ((record_failed cfg now fa lockouts ip).1 ip).length ≤ cfg.LOCKOUT_THRESHOLD * 2 ∧
    (record_failed cfg now fa lockouts ip).2 ip =
      (if cfg.LOCKOUT_THRESHOLD ≤
          (((record_failed cfg now fa lockouts ip).1 ip).filter
            (fun t => now - t < cfg.LOCKOUT_PERIOD)).length then
        some (now + cfg.LOCKOUT_PERIOD)
      else lockouts ip) := by
  refine ⟨record_failed_fa_eq cfg now fa lockouts ip hT, ?_,
    record_failed_lock_eq cfg now fa lockouts ip⟩
  rw [record_failed_fa_eq cfg now fa lockouts ip hT]
  split
  · rename_i h
    rw [List.length_drop]
    omega
  · rename_i h
    omega

theorem C2_record_failed_behaviour_witness :
    0 < (5 : Nat) ∧
    ((record_failed ⟨"admin", some [1], 5, 300, 60, 15⟩ 7
        (fun _ => [1, 2, 3]) (fun _ => none) "9.9.9.9").1 "9.9.9.9" =
          [1, 2, 3, 7] ∧
      ((record_failed ⟨"admin", some [1], 5, 300, 60, 15⟩ 7
        (fun _ => [1, 2, 3]) (fun _ => none) "9.9.9.9").1 "9.9.9.9").length ≤ 10 ∧
      (record_failed ⟨"admin", some [1], 5, 300, 60, 15⟩ 7
        (fun _ => [1, 2, 3]) (fun _ => none) "9.9.9.9").2 "9.9.9.9" = none) := by
  have h := C2_record_failed_behaviour ⟨"admin", some [1], 5, 300, 60, 15⟩ 7
    (fun _ => [1, 2, 3]) (fun _ => none) "9.9.9.9" (by decide)
  refine ⟨by decide, ?_, ?_, ?_⟩
  · rw [h.1]; decide
  · exact h.2.1
  · rw [h.2.2]; decide

/-- C9: after a `record_failed` call (positive threshold) the stored failure
sequence holds at most `2 × threshold` entries, and the opportunistic prune
never manufactures a lockout: whenever the post-prune recent count reaches
the threshold (the exact condition under which the code sets the expiry),
the *unpruned* history `fa ip ++ [now]` of genuine failures already had at
least `threshold` entries within the trailing lockout period; and when the
recent count is below the threshold no lockout is touched. -/
theorem C9_prune_never_locks_early (cfg : Config) (now : Int)
    (fa : String → List Int) (lockouts : String → Option Int) (ip : String)
    (hT : 0 < cfg.LOCKOUT_THRESHOLD) :
    ((record_failed cfg now fa lockouts ip).1 ip).length ≤ cfg.LOCKOUT_THRESHOLD * 2 ∧
    (cfg.LOCKOUT_THRESHOLD ≤
        (((record_failed cfg now fa lockouts ip).1 ip).filter
          (fun t => now - t < cfg.LOCKOUT_PERIOD)).length →
      cfg.LOCKOUT_THRESHOLD ≤
        (((fa ip ++ [now]).filter
          (fun t => now - t < cfg.LOCKOUT_PERIOD)).length) ∧
      (record_failed cfg now fa lockouts ip).2 ip =
        some (now + cfg.LOCKOUT_PERIOD)) ∧
    ((((record_failed cfg now fa lockouts ip).1 ip).filter
          (fun t => now - t < cfg.LOCKOUT_PERIOD)).length < cfg.LOCKOUT_THRESHOLD →
      (record_failed cfg now fa lockouts ip).2 = lockouts) := by
  have hfa := record_failed_fa_eq cfg now fa lockouts ip hT
  have hsub : List.Sublist ((record_failed cfg now fa lockouts ip).1 ip)
      (fa ip ++ [now]) := by
    rw [hfa]; split
    · exact List.drop_sublist _ _
    · exact List.Sublist.refl _
  refine ⟨?_, fun h => ⟨?_, ?_⟩, fun h => ?_⟩
  · rw [hfa]; split
    · rw [List.length_drop]; omega
    · rename_i hlen; omega
  · calc cfg.LOCKOUT_THRESHOLD ≤ _ := h
      _ ≤ _ := (hsub.filter _).length_le
  · rw [record_failed_lock_eq, if_pos h]
  · rw [record_failed_snd, if_neg (by omega)]

theorem C9_prune_never_locks_early_witness :
    0 < (2 : Nat) ∧
    ((record_failed ⟨"admin", some [1], 2, 300, 60, 15⟩ 100
        (fun _ => [1, 2, 3, 4]) (fun _ => none) "y").1 "y").length ≤ 4 := by
  have h := C9_prune_never_locks_early ⟨"admin", some [1], 2, 300, 60, 15⟩ 100
    (fun _ => [1, 2, 3, 4]) (fun _ => none) "y" (by decide)
  exact ⟨by decide, h.1⟩

/-- C4: `is_locked` returns `true` exactly when an expiry is stored and lies
strictly in the future; a stored-but-expired expiry makes it return `false`
and delete the entry, and once expired the entry can never again produce a
positive lock decision on any later call. Stated under the hypothesis that
any stored expiry is positive, which holds for every expiry the code stores
(`time.time() + LOCKOUT_PERIOD` with a positive clock); Python's `if
expiry:` truthiness test makes a zero expiry behave as absent. -/
theorem C4_is_locked_lazy_expiry (now : Int) (lockouts : String → Option Int)
    (ip : String) (hpos : ∀ e, lockouts ip = some e → 0 < e) :
    ((is_locked now lockouts ip).1 = true ↔
      ∃ e, lockouts ip = some e ∧ now < e) ∧
    (∀ e, lockouts ip = some e → e ≤ now →
      (is_locked now lockouts ip).1 = false ∧
      (is_locked now lockouts ip).2 ip = none) ∧
    (∀ e, lockouts ip = some e → e ≤ now →
      ∀ now2, (is_locked now2 (is_locked now lockouts ip).2 ip).1 = false) := by
  rcases h : lockouts ip with _ | e
  · simp [is_locked, h]
  · have he : 0 < e := hpos e h
    have hne : e ≠ 0 := by omega
    by_cases hlt : now < e
    · refine ⟨?_, ?_, ?_⟩
      · simp only [is_locked, h, if_pos hne, if_pos hlt]
        exact ⟨fun _ => ⟨e, rfl, hlt⟩, fun _ => trivial⟩
      · intro e' he' hle
        injection he' with hee
        exact absurd hle (by omega)
      · intro e' he' hle
        injection he' with hee
        exact absurd hle (by omega)
    · refine ⟨?_, ?_, ?_⟩
      · simp only [is_locked, h, if_pos hne, if_neg hlt]
        constructor
        · intro hfalse
          exact absurd hfalse (by simp)
        · rintro ⟨e', he', hlt'⟩
          injection he' with hee
          exact absurd hlt' (by omega)
      · intro e' he' hle
        refine ⟨?_, ?_⟩
        · simp only [is_locked, h, if_pos hne, if_neg hlt]
        · simp only [is_locked, h, if_pos hne, if_neg hlt]
          exact upd_same lockouts ip none
      · intro e' he' hle now2
        simp only [is_locked, h, if_pos hne, if_neg hlt]
        simp [is_locked, upd]

theorem C4_is_locked_lazy_expiry_witness :
    (∀ e, (fun (_ : String) => some (50 : Int)) "x" = some e → 0 < e) ∧
    ((is_locked 10 (fun _ => some (50 : Int)) "x").1 = true ↔
      ∃ e, (fun (_ : String) => some (50 : Int)) "x" = some e ∧ (10 : Int) < e) := by
  have hpos : ∀ e, (fun (_ : String) => some (50 : Int)) "x" = some e → 0 < e := by
    intro e he; injection he with h; omega
  exact ⟨hpos, (C4_is_locked_lazy_expiry 10 (fun _ => some (50 : Int)) "x" hpos).1⟩

/-- C7: any exception from the bcrypt comparison (an `Except.error` outcome
of the oracle) is absorbed into a `false` verification result in both
implementations of `check_password`, never propagated (the functions are
total and `Bool`-valued); a missing configured hash makes verification fail
for every candidate and every oracle; and the same missing hash makes the
`__main__` startup gate exit with code 1 instead of serving. -/
theorem C7_check_password_never_raises (cfg : Config)
    (checkpw : List Nat → List Nat → Except Unit Bool) (p : String) :
    (cfg.ADMIN_PW_HASH = none →
      (∀ q, check_password_app cfg checkpw q = false) ∧
      (∀ q, check_password_server cfg checkpw q = false) ∧
      main_startup cfg none = Except.error 1) ∧
    (∀ h, cfg.ADMIN_PW_HASH = some h →
      checkpw (utf8 p) h = Except.error () →
      check_password_app cfg checkpw (some p) = false ∧
      check_password_server cfg checkpw p = false) := by
  constructor
  · intro hnone
    refine ⟨fun q => ?_, fun q => ?_, ?_⟩
    · simp [check_password_app, hnone]
    · simp [check_password_server, hnone]
    · simp [main_startup, hnone]
  · intro h hsome herr
    constructor
    · simp [check_password_app, hsome, herr]
    · simp [check_password_server, hsome, herr]

theorem C7_check_password_never_raises_witness :
    (⟨"admin", some [9], 5, 300, 60, 15⟩ : Config).ADMIN_PW_HASH = some [9] ∧
    check_password_app ⟨"admin", some [9], 5, 300, 60, 15⟩
      (fun _ _ => Except.error ()) (some "pw") = false ∧
    check_password_server ⟨"admin", some [9], 5, 300, 60, 15⟩
      (fun _ _ => Except.error ()) "pw" = false := by
  have h := (C7_check_password_never_raises ⟨"admin", some [9], 5, 300, 60, 15⟩
    (fun _ _ => Except.error ()) "pw").2 [9] rfl rfl
  exact ⟨rfl, h.1, h.2⟩

/-! ### ASCII / UTF-8 lemmas -/

theorem utf8Char_ascii {c : Char} (h : c.toNat < 128) : utf8Char c = [c.toNat] := by
  unfold utf8Char
  rw [if_pos h]

theorem char_toNat_injective : Function.Injective Char.toNat := by
  intro c d h
  exact Char.eq_of_val_eq (UInt32.ext h)

theorem utf8_ascii_list :
    ∀ l : List Char, l.all (fun c => decide (c.toNat < 128)) = true →
      l.flatMap utf8Char = l.map Char.toNat
  | [], _ => rfl
  | c :: cs, h => by
    simp only [List.all_cons, Bool.and_eq_true, decide_eq_true_eq] at h
    simp [List.flatMap_cons, utf8Char_ascii h.1, utf8_ascii_list cs h.2]

theorem utf8_ascii {s : String} (h : isAsciiStr s = true) :
    utf8 s = s.data.map Char.toNat :=
  utf8_ascii_list s.data h

theorem utf8_beq_of_ascii {a b : String} (ha : isAsciiStr a = true)
    (hb : isAsciiStr b = true) : (utf8 a == utf8 b) = (a == b) := by
  rw [Bool.eq_iff_iff, beq_iff_eq, beq_iff_eq, utf8_ascii ha, utf8_ascii hb]
  constructor
  · intro h
    exact String.ext (List.map_injective_iff.mpr char_toNat_injective h)
  · intro h
    rw [h]

theorem check_password_app_some (cfg : Config)
    (checkpw : List Nat → List Nat → Except Unit Bool) (p : String) :
    check_password_app cfg checkpw (some p) = check_password_server cfg checkpw p := by
  rcases h : cfg.ADMIN_PW_HASH with _ | hsh <;>
    simp [check_password_app, check_password_server, h]

/-! ### `is_locked` helper lemmas -/

theorem is_locked_snd_cases (now : Int) (lockouts : String → Option Int)
    (ip : String) :
    (is_locked now lockouts ip).2 = lockouts ∨
    (∃ e, lockouts ip = some e ∧ e ≠ 0 ∧ e ≤ now ∧
      (is_locked now lockouts ip).2 = upd lockouts ip none) := by
  rcases h : lockouts ip with _ | e
  · left; simp [is_locked, h]
  · by_cases hz : e ≠ 0
    · by_cases hlt : now < e
      · left; simp [is_locked, h, hz, hlt]
      · right
        exact ⟨e, rfl, hz, by omega, by simp [is_locked, h, hz, hlt]⟩
    · left; simp [is_locked, h, hz]

theorem is_locked_store_of_false (now : Int) (lockouts : String → Option Int)
    (ip : String) (h : (is_locked now lockouts ip).1 = false) :
    (is_locked now lockouts ip).2 ip = none ∨
    (is_locked now lockouts ip).2 ip = some 0 := by
  rcases hv : lockouts ip with _ | e
  · left; simp [is_locked, hv]
  · by_cases hz : e ≠ 0
    · by_cases hlt : now < e
      · exfalso
        simp [is_locked, hv, hz, hlt] at h
      · left
        simp [is_locked, hv, hz, hlt, upd]
    · right
      push_neg at hz
      subst hz
      simp [is_locked, hv]

theorem is_locked_of_none_or_zero (now : Int) (lockouts : String → Option Int)
    (ip : String) (h : lockouts ip = none ∨ lockouts ip = some 0) :
    (is_locked now lockouts ip).1 = false ∧
    (is_locked now lockouts ip).2 ip = lockouts ip := by
  rcases h with h | h <;> simp [is_locked, h]

/-! ### Branch lemmas for the guard decorators -/

theorem guard_app_429 (cfg : Config) (cpw : List Nat → List Nat → Except Unit Bool)
    (now : Int) (req : Request) (s : St)
    (h : (rate_limit_ok cfg now s.rate_windows (client_ip req)).1 = false) :
    require_basic_auth_app cfg cpw now req s =
      ((Outcome.rateExceeded, Decision.reject 429 "Too many requests. Slow down." none),
        { s with rate_windows := (rate_limit_ok cfg now s.rate_windows (client_ip req)).2 }) := by
  simp [require_basic_auth_app, h]

theorem guard_app_403 (cfg : Config) (cpw : List Nat → List Nat → Except Unit Bool)
    (now : Int) (req : Request) (s : St)
    (h1 : (rate_limit_ok cfg now s.rate_windows (client_ip req)).1 = true)
    (h2 : (is_locked now s.lockouts (client_ip req)).1 = true) :
    require_basic_auth_app cfg cpw now req s =
      ((Outcome.locked,
        Decision.reject 403 "Temporarily blocked due to repeated failed attempts." none),
        { s with rate_windows := (rate_limit_ok cfg now s.rate_windows (client_ip req)).2,
                 lockouts := (is_locked now s.lockouts (client_ip req)).2 }) := by
  simp [require_basic_auth_app, h1, h2]

theorem guard_app_noauth (cfg : Config) (cpw : List Nat → List Nat → Except Unit Bool)
    (now : Int) (req : Request) (s : St)
    (h1 : (rate_limit_ok cfg now s.rate_windows (client_ip req)).1 = true)
    (h2 : (is_locked now s.lockouts (client_ip req)).1 = false)
    (h3 : req.auth = none) :
    require_basic_auth_app cfg cpw now req s =
      ((Outcome.noCredentials,
        Decision.reject 401 "Authentication required" (some basicRealm)),
        { s with rate_windows := (rate_limit_ok cfg now s.rate_windows (client_ip req)).2,
                 lockouts := (is_locked now s.lockouts (client_ip req)).2 }) := by
  simp [require_basic_auth_app, h1, h2, h3]

theorem guard_app_granted (cfg : Config) (cpw : List Nat → List Nat → Except Unit Bool)
    (now : Int) (req : Request) (s : St) (a : AuthData)
    (h1 : (rate_limit_ok cfg now s.rate_windows (client_ip req)).1 = true)
    (h2 : (is_locked now s.lockouts (client_ip req)).1 = false)
    (h3 : req.auth = some a) (h4 : verify_app cfg cpw a = true) :
    require_basic_auth_app cfg cpw now req s =
      ((Outcome.granted, Decision.proceed),
        { s with rate_windows := (rate_limit_ok cfg now s.rate_windows (client_ip req)).2,
                 lockouts := (is_locked now s.lockouts (client_ip req)).2,
                 failed_attempts := upd s.failed_attempts (client_ip req) [] }) := by
  simp [require_basic_auth_app, h1, h2, h3, h4]

theorem guard_app_mismatch (cfg : Config) (cpw : List Nat → List Nat → Except Unit Bool)
    (now : Int) (req : Request) (s : St) (a : AuthData)
    (h1 : (rate_limit_ok cfg now s.rate_windows (client_ip req)).1 = true)
    (h2 : (is_locked now s.lockouts (client_ip req)).1 = false)
    (h3 : req.auth = some a) (h4 : verify_app cfg cpw a = false) :
    require_basic_auth_app cfg cpw now req s =
      ((Outcome.credentialMismatch,
        Decision.reject 401 "Invalid credentials" (some basicRealm)),
        { s with rate_windows := (rate_limit_ok cfg now s.rate_windows (client_ip req)).2,
                 lockouts := (record_failed cfg now s.failed_attempts
                   (is_locked now s.lockouts (client_ip req)).2 (client_ip req)).2,
                 failed_attempts := (record_failed cfg now s.failed_attempts
                   (is_locked now s.lockouts (client_ip req)).2 (client_ip req)).1 }) := by
  simp [require_basic_auth_app, h1, h2, h3, h4]

/-- Exhaustive branch analysis of the src/app.py guard. -/
theorem guard_app_split (cfg : Config) (cpw : List Nat → List Nat → Except Unit Bool)
    (now : Int) (req : Request) (s : St) :
    ((rate_limit_ok cfg now s.rate_windows (client_ip req)).1 = false ∧
      require_basic_auth_app cfg cpw now req s =
        ((Outcome.rateExceeded, Decision.reject 429 "Too many requests. Slow down." none),
          { s with rate_windows := (rate_limit_ok cfg now s.rate_windows (client_ip req)).2 })) ∨
    ((rate_limit_ok cfg now s.rate_windows (client_ip req)).1 = true ∧
      (is_locked now s.lockouts (client_ip req)).1 = true ∧
      require_basic_auth_app cfg cpw now req s =
        ((Outcome.locked,
          Decision.reject 403 "Temporarily blocked due to repeated failed attempts." none),
          { s with rate_windows := (rate_limit_ok cfg now s.rate_windows (client_ip req)).2,
                   lockouts := (is_locked now s.lockouts (client_ip req)).2 })) ∨
    ((rate_limit_ok cfg now s.rate_windows (client_ip req)).1 = true ∧
      (is_locked now s.lockouts (client_ip req)).1 = false ∧
      req.auth = none ∧
      require_basic_auth_app cfg cpw now req s =
        ((Outcome.noCredentials,
          Decision.reject 401 "Authentication required" (some basicRealm)),
          { s with rate_windows := (rate_limit_ok cfg now s.rate_windows (client_ip req)).2,
                   lockouts := (is_locked now s.lockouts (client_ip req)).2 })) ∨
    ((rate_limit_ok cfg now s.rate_windows (client_ip req)).1 = true ∧
      (is_locked now s.lockouts (client_ip req)).1 = false ∧
      (∃ a, req.auth = some a ∧ verify_app cfg cpw a = false) ∧
      require_basic_auth_app cfg cpw now req s =
        ((Outcome.credentialMismatch,
          Decision.reject 401 "Invalid credentials" (some basicRealm)),
          { s with rate_windows := (rate_limit_ok cfg now s.rate_windows (client_ip req)).2,
                   lockouts := (record_failed cfg now s.failed_attempts
                     (is_locked now s.lockouts (client_ip req)).2 (client_ip req)).2,
                   failed_attempts := (record_failed cfg now s.failed_attempts
                     (is_locked now s.lockouts (client_ip req)).2 (client_ip req)).1 })) ∨
    ((rate_limit_ok cfg now s.rate_windows (client_ip req)).1 = true ∧
      (is_locked now s.lockouts (client_ip req)).1 = false ∧
      (∃ a, req.auth = some a ∧ verify_app cfg cpw a = true) ∧
      require_basic_auth_app cfg cpw now req s =
        ((Outcome.granted, Decision.proceed),
          { s with rate_windows := (rate_limit_ok cfg now s.rate_windows (client_ip req)).2,
                   lockouts := (is_locked now s.lockouts (client_ip req)).2,
                   failed_attempts := upd s.failed_attempts (client_ip req) [] })) := by
  cases hrl : (rate_limit_ok cfg now s.rate_windows (client_ip req)).1 with
  | false => exact Or.inl ⟨rfl, guard_app_429 cfg cpw now req s hrl⟩
  | true =>
    cases hlo : (is_locked now s.lockouts (client_ip req)).1 with
    | true =>
      exact Or.inr (Or.inl ⟨rfl, rfl, guard_app_403 cfg cpw now req s hrl hlo⟩)
    | false =>
      rcases hauth : req.auth with _ | a
      · exact Or.inr (Or.inr (Or.inl
          ⟨rfl, rfl, rfl, guard_app_noauth cfg cpw now req s hrl hlo hauth⟩))
      · cases hv : verify_app cfg cpw a with
        | false =>
          exact Or.inr (Or.inr (Or.inr (Or.inl ⟨rfl, rfl, ⟨a, rfl, hv⟩,
            guard_app_mismatch cfg cpw now req s a hrl hlo hauth hv⟩)))
        | true =>
          exact Or.inr (Or.inr (Or.inr (Or.inr ⟨rfl, rfl, ⟨a, rfl, hv⟩,
            guard_app_granted cfg cpw now req s a hrl hlo hauth hv⟩)))

/-- When the configured username and any supplied username are ASCII-only,
the src/server.py guard returns normally and agrees with the src/app.py
guard on the outcome, the HTTP decision, and the final stores. -/
theorem server_eq_app (cfg : Config) (cpw : List Nat → List Nat → Except Unit Bool)
    (now : Int) (req : Request) (s : St)
    (hadmin : isAsciiStr cfg.ADMIN_USER = true)
    (hok : ∀ a, req.auth = some a → isAsciiStr (a.username.getD "") = true) :
    require_basic_auth_server cfg cpw now req s =
      (Except.ok (require_basic_auth_app cfg cpw now req s).1,
        (require_basic_auth_app cfg cpw now req s).2) := by
  cases hrl : (rate_limit_ok cfg now s.rate_windows (client_ip req)).1 with
  | false =>
    rw [guard_app_429 cfg cpw now req s hrl]
    simp [require_basic_auth_server, hrl]
  | true =>
    cases hlo : (is_locked now s.lockouts (client_ip req)).1 with
    | true =>
      rw [guard_app_403 cfg cpw now req s hrl hlo]
      simp [require_basic_auth_server, hrl, hlo]
    | false =>
      rcases hauth : req.auth with _ | a
      · rw [guard_app_noauth cfg cpw now req s hrl hlo hauth]
        simp [require_basic_auth_server, hrl, hlo, hauth]
      · have ha := hok a hauth
        have hcd : compare_digest_str (a.username.getD "") cfg.ADMIN_USER =
            Except.ok ((a.username.getD "") == cfg.ADMIN_USER) := by
          simp [compare_digest_str, ha, hadmin]
        have hv : verify_app cfg cpw a =
            (((a.username.getD "") == cfg.ADMIN_USER) &&
              check_password_server cfg cpw (a.password.getD "")) := by
          unfold verify_app compare_digest_bytes
          rw [utf8_beq_of_ascii ha hadmin, check_password_app_some]
        cases hb : (((a.username.getD "") == cfg.ADMIN_USER) &&
            check_password_server cfg cpw (a.password.getD "")) with
        | true =>
          rw [guard_app_granted cfg cpw now req s a hrl hlo hauth (hv.trans hb)]
          simp [require_basic_auth_server, hrl, hlo, hauth, hcd, hb]
        | false =>
          rw [guard_app_mismatch cfg cpw now req s a hrl hlo hauth (hv.trans hb)]
          simp [require_basic_auth_server, hrl, hlo, hauth, hcd, hb]

/-- C1 counterexample: a request whose Basic-Auth username contains a
non-ASCII character makes the src/server.py guard raise `TypeError` inside
`hmac.compare_digest` (an `Except.error` escape), so no outcome from the
five-outcome state machine and none of the three rejection statuses is
produced there, contradicting the claim for that implementation. -/
theorem C1_counterexample :
    (require_basic_auth_server ⟨"admin", some [0], 5, 300, 60, 15⟩
        (fun _ _ => Except.ok false) 0
        ⟨none, some "8.8.8.8", some ⟨some "naïve", some "x"⟩⟩
        ⟨fun _ => [], fun _ => none, fun _ => []⟩).1 = Except.error () := by
  rfl

/-- C1 (amended): for the src/app.py guard every request yields exactly one
of the five outcomes, decided in strict order (rate limit, then lockout,
then credential presence, then verification), with statuses 429 / 403 /
401+`WWW-Authenticate: Basic realm="Admin Area"`, and a rate-limit
rejection touches neither the failure history nor the lockout store. The
src/server.py guard behaves identically provided the configured username
and any supplied username are ASCII-only; a non-ASCII username makes it
raise an uncaught `TypeError` instead of producing an outcome. -/
theorem C1_guard_strict_order (cfg : Config)
    (cpw : List Nat → List Nat → Except Unit Bool) (now : Int) (req : Request)
    (s : St) :
    ((require_basic_auth_app cfg cpw now req s).1.1 = Outcome.rateExceeded ↔
      (rate_limit_ok cfg now s.rate_windows (client_ip req)).1 = false) ∧
    ((rate_limit_ok cfg now s.rate_windows (client_ip req)).1 = false →
      (require_basic_auth_app cfg cpw now req s).1.2 =
        Decision.reject 429 "Too many requests. Slow down." none ∧
      (require_basic_auth_app cfg cpw now req s).2.failed_attempts =
        s.failed_attempts ∧
      (require_basic_auth_app cfg cpw now req s).2.lockouts = s.lockouts) ∧
    ((require_basic_auth_app cfg cpw now req s).1.1 = Outcome.locked ↔
      (rate_limit_ok cfg now s.rate_windows (client_ip req)).1 = true ∧
      (is_locked now s.lockouts (client_ip req)).1 = true) ∧
    ((require_basic_auth_app cfg cpw now req s).1.1 = Outcome.locked →
      (require_basic_auth_app cfg cpw now req s).1.2 =
        Decision.reject 403 "Temporarily blocked due to repeated failed attempts." none) ∧
    ((require_basic_auth_app cfg cpw now req s).1.1 = Outcome.noCredentials ↔
      (rate_limit_ok cfg now s.rate_windows (client_ip req)).1 = true ∧
      (is_locked now s.lockouts (client_ip req)).1 = false ∧
      req.auth = none) ∧
    ((require_basic_auth_app cfg cpw now req s).1.1 = Outcome.credentialMismatch ↔
      (rate_limit_ok cfg now s.rate_windows (client_ip req)).1 = true ∧
      (is_locked now s.lockouts (client_ip req)).1 = false ∧
      (∃ a, req.auth = some a ∧ verify_app cfg cpw a = false)) ∧
    (((require_basic_auth_app cfg cpw now req s).1.1 = Outcome.noCredentials ∨
      (require_basic_auth_app cfg cpw now req s).1.1 = Outcome.credentialMismatch) →
      ∃ body, (require_basic_auth_app cfg cpw now req s).1.2 =
        Decision.reject 401 body (some basicRealm)) ∧
    ((require_basic_auth_app cfg cpw now req s).1.1 = Outcome.granted ↔
      (rate_limit_ok cfg now s.rate_windows (client_ip req)).1 = true ∧
      (is_locked now s.lockouts (client_ip req)).1 = false ∧
      (∃ a, req.auth = some a ∧ verify_app cfg cpw a = true)) ∧
    ((require_basic_auth_app cfg cpw now req s).1.1 = Outcome.granted →
      (require_basic_auth_app cfg cpw now req s).1.2 = Decision.proceed) ∧
    (isAsciiStr cfg.ADMIN_USER = true →
      (∀ a, req.auth = some a → isAsciiStr (a.username.getD "") = true) →
      require_basic_auth_server cfg cpw now req s =
        (Except.ok (require_basic_auth_app cfg cpw now req s).1,
          (require_basic_auth_app cfg cpw now req s).2)) := by
  rcases guard_app_split cfg cpw now req s with
    ⟨hrl, heq⟩ | ⟨hrl, hlo, heq⟩ | ⟨hrl, hlo, hauth, heq⟩ |
    ⟨hrl, hlo, ⟨a, hauth, hv⟩, heq⟩ | ⟨hrl, hlo, ⟨a, hauth, hv⟩, heq⟩ <;>
    refine ⟨?_, ?_, ?_, ?_, ?_, ?_, ?_, ?_, ?_,
      fun h1 h2 => server_eq_app cfg cpw now req s h1 h2⟩ <;>
    rw [heq] <;>
    simp_all

theorem C1_guard_strict_order_witness :
    ((require_basic_auth_app ⟨"admin", some [0], 5, 300, 60, 15⟩
        (fun _ _ => Except.ok false) 0
        ⟨none, some "6.6.6.6", none⟩
        ⟨fun _ => [], fun _ => none, fun _ => []⟩).1.1 = Outcome.noCredentials ↔
      (rate_limit_ok ⟨"admin", some [0], 5, 300, 60, 15⟩ 0
        (fun _ => []) (client_ip ⟨none, some "6.6.6.6", none⟩)).1 = true ∧
      (is_locked 0 (fun _ => none)
        (client_ip ⟨none, some "6.6.6.6", none⟩)).1 = false ∧
      (⟨none, some "6.6.6.6", none⟩ : Request).auth = none) :=
  (C1_guard_strict_order ⟨"admin", some [0], 5, 300, 60, 15⟩
    (fun _ _ => Except.ok false) 0 ⟨none, some "6.6.6.6", none⟩
    ⟨fun _ => [], fun _ => none, fun _ => []⟩).2.2.2.2.1

/-- C10 counterexample: with the same configuration, oracle, clock, request
and state, a non-ASCII supplied username makes the src/server.py guard
raise (`hmac.compare_digest` on `str` is ASCII-only) while the src/app.py
guard, which compares UTF-8 byte strings, returns a 401 credential
mismatch: the two decorators do not always decide alike. -/
theorem C10_counterexample :
    (require_basic_auth_server ⟨"admin", some [0], 5, 300, 60, 15⟩
        (fun _ _ => Except.ok false) 0
        ⟨none, some "9.9.9.9", some ⟨some "café", some "x"⟩⟩
        ⟨fun _ => [], fun _ => none, fun _ => []⟩).1 = Except.error () ∧
    (require_basic_auth_app ⟨"admin", some [0], 5, 300, 60, 15⟩
        (fun _ _ => Except.ok false) 0
        ⟨none, some "9.9.9.9", some ⟨some "café", some "x"⟩⟩
        ⟨fun _ => [], fun _ => none, fun _ => []⟩).1 =
      (Outcome.credentialMismatch,
        Decision.reject 401 "Invalid credentials" (some basicRealm)) := by
  exact ⟨rfl, rfl⟩

/-- C10 (amended): whenever the configured username and the supplied
username (when credentials are present) are ASCII-only, the two
`require_basic_auth` decorators produce the same decision and the same
state updates on every input; without that restriction the src/server.py
version can raise where the src/app.py version rejects with 401. -/
theorem C10_guards_agree_on_ascii (cfg : Config)
    (cpw : List Nat → List Nat → Except Unit Bool) (now : Int) (req : Request)
    (s : St) (hadmin : isAsciiStr cfg.ADMIN_USER = true)
    (hok : ∀ a, req.auth = some a → isAsciiStr (a.username.getD "") = true) :
    require_basic_auth_server cfg cpw now req s =
      (Except.ok (require_basic_auth_app cfg cpw now req s).1,
        (require_basic_auth_app cfg cpw now req s).2) :=
  server_eq_app cfg cpw now req s hadmin hok

theorem C10_guards_agree_on_ascii_witness :
    require_basic_auth_server ⟨"admin", some [0], 5, 300, 60, 15⟩
        (fun _ _ => Except.ok false) 0
        ⟨none, some "5.5.5.5", some ⟨some "admin", some "pw"⟩⟩
        ⟨fun _ => [], fun _ => none, fun _ => []⟩ =
      (Except.ok (require_basic_auth_app ⟨"admin", some [0], 5, 300, 60, 15⟩
          (fun _ _ => Except.ok false) 0
          ⟨none, some "5.5.5.5", some ⟨some "admin", some "pw"⟩⟩
          ⟨fun _ => [], fun _ => none, fun _ => []⟩).1,
        (require_basic_auth_app ⟨"admin", some [0], 5, 300, 60, 15⟩
          (fun _ _ => Except.ok false) 0
          ⟨none, some "5.5.5.5", some ⟨some "admin", some "pw"⟩⟩
          ⟨fun _ => [], fun _ => none, fun _ => []⟩).2) :=
  C10_guards_agree_on_ascii ⟨"admin", some [0], 5, 300, 60, 15⟩
    (fun _ _ => Except.ok false) 0
    ⟨none, some "5.5.5.5", some ⟨some "admin", some "pw"⟩⟩
    ⟨fun _ => [], fun _ => none, fun _ => []⟩ (by decide)
    (fun a ha => by cases ha; decide)

/-- C6: verification is the boolean AND of the constant-time username
comparison (on UTF-8 byte strings) and the bcrypt password check, with both
conjuncts computed before the conjunction as in the source; an absent
username or password is compared as the empty string rather than failing
without comparison; and inside the guard (admitted, not locked, credentials
present) the request is granted exactly when that AND is true. -/
theorem C6_verify_is_and_of_both (cfg : Config)
    (cpw : List Nat → List Nat → Except Unit Bool) (a : AuthData) :
    (verify_app cfg cpw a = true ↔
      compare_digest_bytes (utf8 (a.username.getD "")) (utf8 cfg.ADMIN_USER) = true ∧
      check_password_app cfg cpw (some (a.password.getD "")) = true) ∧
    verify_app cfg cpw a =
      verify_app cfg cpw ⟨some (a.username.getD ""), some (a.password.getD "")⟩ ∧
    (∀ now req s, req.auth = some a →
      (rate_limit_ok cfg now s.rate_windows (client_ip req)).1 = true →
      (is_locked now s.lockouts (client_ip req)).1 = false →
      ((require_basic_auth_app cfg cpw now req s).1.1 = Outcome.granted ↔
        verify_app cfg cpw a = true)) := by
  refine ⟨(Bool.and_eq_true _ _).to_iff, rfl, ?_⟩
  intro now req s hauth hrl hlo
  cases hv : verify_app cfg cpw a with
  | true =>
    rw [guard_app_granted cfg cpw now req s a hrl hlo hauth hv]
    simp
  | false =>
    rw [guard_app_mismatch cfg cpw now req s a hrl hlo hauth hv]
    simp

theorem C6_verify_is_and_of_both_witness :
    verify_app ⟨"admin", some [7], 5, 300, 60, 15⟩ (fun _ _ => Except.ok true)
        ⟨none, some "pw"⟩ =
      verify_app ⟨"admin", some [7], 5, 300, 60, 15⟩ (fun _ _ => Except.ok true)
        ⟨some "", some "pw"⟩ :=
  (C6_verify_is_and_of_both ⟨"admin", some [7], 5, 300, 60, 15⟩
    (fun _ _ => Except.ok true) ⟨none, some "pw"⟩).2.1

/-- C5: on a granted request the only store the success branch touches is
the failure history, which it clears for the requesting identity; the
lockout store is exactly what the earlier lazy-expiry check left and the
rate window is exactly what the rate-limit step left. Consequently (for
`threshold ≥ 2`) a single failed request right after a success can never
leave the identity locked. -/
theorem C5_success_resets_failures_only (cfg : Config)
    (cpw : List Nat → List Nat → Except Unit Bool) (now : Int) (req : Request)
    (s : St) :
    ((require_basic_auth_app cfg cpw now req s).1.1 = Outcome.granted →
      (require_basic_auth_app cfg cpw now req s).2.failed_attempts =
        upd s.failed_attempts (client_ip req) [] ∧
      (require_basic_auth_app cfg cpw now req s).2.lockouts =
        (is_locked now s.lockouts (client_ip req)).2 ∧
      (require_basic_auth_app cfg cpw now req s).2.rate_windows =
        (rate_limit_ok cfg now s.rate_windows (client_ip req)).2) ∧
    (2 ≤ cfg.LOCKOUT_THRESHOLD →
      ∀ (cpw2 : List Nat → List Nat → Except Unit Bool) (now2 : Int)
        (req2 : Request),
        client_ip req2 = client_ip req →
        (require_basic_auth_app cfg cpw now req s).1.1 = Outcome.granted →
        (require_basic_auth_app cfg cpw2 now2 req2
          (require_basic_auth_app cfg cpw now req s).2).1.1 =
            Outcome.credentialMismatch →
        ∀ now3, (is_locked now3
          (require_basic_auth_app cfg cpw2 now2 req2
            (require_basic_auth_app cfg cpw now req s).2).2.lockouts
          (client_ip req)).1 = false) := by
  constructor
  · intro hgr
    rcases guard_app_split cfg cpw now req s with
      ⟨hrl, heq⟩ | ⟨hrl, hlo, heq⟩ | ⟨hrl, hlo, hauth, heq⟩ |
      ⟨hrl, hlo, ⟨a, hauth, hv⟩, heq⟩ | ⟨hrl, hlo, ⟨a, hauth, hv⟩, heq⟩ <;>
      rw [heq] at hgr ⊢ <;> simp_all
  · intro hT cpw2 now2 req2 hip hgr hmis now3
    rcases guard_app_split cfg cpw now req s with
      ⟨hrl, heq⟩ | ⟨hrl, hlo, heq⟩ | ⟨hrl, hlo, hauth, heq⟩ |
      ⟨hrl, hlo, ⟨a, hauth, hv⟩, heq⟩ | ⟨hrl, hlo, ⟨a, hauth, hv⟩, heq⟩
    · rw [heq] at hgr; simp at hgr
    · rw [heq] at hgr; simp at hgr
    · rw [heq] at hgr; simp at hgr
    · rw [heq] at hgr; simp at hgr
    · have hz1 : (require_basic_auth_app cfg cpw now req s).2.lockouts
          (client_ip req) = none ∨
        (require_basic_auth_app cfg cpw now req s).2.lockouts
          (client_ip req) = some 0 := by
        rw [heq]
        exact is_locked_store_of_false now s.lockouts (client_ip req) hlo
      have hfa1 : (require_basic_auth_app cfg cpw now req s).2.failed_attempts
          (client_ip req) = [] := by
        rw [heq]
        exact upd_same _ _ _
      rcases guard_app_split cfg cpw2 now2 req2
          ((require_basic_auth_app cfg cpw now req s).2) with
        ⟨hrl2, heq2⟩ | ⟨hrl2, hlo2, heq2⟩ | ⟨hrl2, hlo2, hauth2, heq2⟩ |
        ⟨hrl2, hlo2, ⟨a2, hauth2, hv2⟩, heq2⟩ |
        ⟨hrl2, hlo2, ⟨a2, hauth2, hv2⟩, heq2⟩
      · rw [heq2] at hmis; simp at hmis
      · rw [heq2] at hmis; simp at hmis
      · rw [heq2] at hmis; simp at hmis
      · rw [heq2]
        dsimp only
        rw [hip]
        have hfacnt : (record_failed cfg now2
            (require_basic_auth_app cfg cpw now req s).2.failed_attempts
            (is_locked now2 (require_basic_auth_app cfg cpw now req s).2.lockouts
              (client_ip req)).2 (client_ip req)).1 (client_ip req) = [now2] := by
          have hns : ¬ (((
              (require_basic_auth_app cfg cpw now req s).2.failed_attempts
                (client_ip req)) ++ [now2]).length > cfg.LOCKOUT_THRESHOLD * 2) := by
            rw [hfa1]
            simp
            omega
          rw [record_failed_fst, if_neg hns, hfa1]
          simp
        have hcnt : (((record_failed cfg now2
            (require_basic_auth_app cfg cpw now req s).2.failed_attempts
            (is_locked now2 (require_basic_auth_app cfg cpw now req s).2.lockouts
              (client_ip req)).2 (client_ip req)).1 (client_ip req)).filter
            (fun t => now2 - t < cfg.LOCKOUT_PERIOD)).length ≤ 1 := by
          rw [hfacnt]
          exact List.length_filter_le _ _
        have hrf2 : (record_failed cfg now2
            (require_basic_auth_app cfg cpw now req s).2.failed_attempts
            (is_locked now2 (require_basic_auth_app cfg cpw now req s).2.lockouts
              (client_ip req)).2 (client_ip req)).2 =
            (is_locked now2 (require_basic_auth_app cfg cpw now req s).2.lockouts
              (client_ip req)).2 := by
          rw [record_failed_snd, if_neg (by omega)]
        rw [hrf2]
        have hlk2 := is_locked_of_none_or_zero now2
          ((require_basic_auth_app cfg cpw now req s).2.lockouts)
          (client_ip req) hz1
        have hz2 : (is_locked now2
            (require_basic_auth_app cfg cpw now req s).2.lockouts
            (client_ip req)).2 (client_ip req) = none ∨
          (is_locked now2 (require_basic_auth_app cfg cpw now req s).2.lockouts
            (client_ip req)).2 (client_ip req) = some 0 := by
          rw [hlk2.2]
          exact hz1
        exact (is_locked_of_none_or_zero now3 _ (client_ip req) hz2).1
      · rw [heq2] at hmis; simp at hmis

theorem C5_success_resets_failures_only_witness :
    (require_basic_auth_app ⟨"admin", some [7], 5, 300, 60, 15⟩
        (fun _ _ => Except.ok true) 0
        ⟨none, some "4.4.4.4", some ⟨some "admin", some "pw"⟩⟩
        ⟨fun _ => [1], fun _ => none, fun _ => []⟩).2.failed_attempts =
      upd (fun _ => [1]) (client_ip ⟨none, some "4.4.4.4",
        some ⟨some "admin", some "pw"⟩⟩) [] ∧
    (require_basic_auth_app ⟨"admin", some [7], 5, 300, 60, 15⟩
        (fun _ _ => Except.ok true) 0
        ⟨none, some "4.4.4.4", some ⟨some "admin", some "pw"⟩⟩
        ⟨fun _ => [1], fun _ => none, fun _ => []⟩).2.lockouts =
      (is_locked 0 (fun _ => none) (client_ip ⟨none, some "4.4.4.4",
        some ⟨some "admin", some "pw"⟩⟩)).2 ∧
    (require_basic_auth_app ⟨"admin", some [7], 5, 300, 60, 15⟩
        (fun _ _ => Except.ok true) 0
        ⟨none, some "4.4.4.4", some ⟨some "admin", some "pw"⟩⟩
        ⟨fun _ => [1], fun _ => none, fun _ => []⟩).2.rate_windows =
      (rate_limit_ok ⟨"admin", some [7], 5, 300, 60, 15⟩ 0 (fun _ => [])
        (client_ip ⟨none, some "4.4.4.4", some ⟨some "admin", some "pw"⟩⟩)).2 :=
  (C5_success_resets_failures_only ⟨"admin", some [7], 5, 300, 60, 15⟩
    (fun _ _ => Except.ok true) 0
    ⟨none, some "4.4.4.4", some ⟨some "admin", some "pw"⟩⟩
    ⟨fun _ => [1], fun _ => none, fun _ => []⟩).1 (by rfl)

/-- C8 counterexample: a credential-less request from an identity holding
an already-expired lockout expiry answers 401 as claimed, but the lockout
entry is not left unchanged — the lazy-expiry check deletes it. -/
theorem C8_counterexample :
    (require_basic_auth_app ⟨"admin", some [0], 5, 300, 60, 15⟩
        (fun _ _ => Except.ok false) 10
        ⟨none, some "7.7.7.7", none⟩
        ⟨fun _ => [], fun _ => some 5, fun _ => []⟩).1.1 = Outcome.noCredentials ∧
    (⟨fun _ => [], fun _ => some 5, fun _ => []⟩ : St).lockouts "7.7.7.7" = some 5 ∧
    (require_basic_auth_app ⟨"admin", some [0], 5, 300, 60, 15⟩
        (fun _ _ => Except.ok false) 10
        ⟨none, some "7.7.7.7", none⟩
        ⟨fun _ => [], fun _ => some 5, fun _ => []⟩).2.lockouts "7.7.7.7" =
      none := by
  exact ⟨rfl, rfl, rfl⟩

/-- C8 (amended): a request without Basic-Auth data that is neither
rate-limited nor locked answers 401 with the challenge header, records no
failure (the failure store is untouched), and sets no lockout: the lockout
store is unchanged except that an already-expired expiry for the identity
may be lazily deleted, which leaves the identity's not-locked status
intact. -/
theorem C8_noauth_no_failure (cfg : Config)
    (cpw : List Nat → List Nat → Except Unit Bool) (now : Int) (req : Request)
    (s : St)
    (hrl : (rate_limit_ok cfg now s.rate_windows (client_ip req)).1 = true)
    (hlo : (is_locked now s.lockouts (client_ip req)).1 = false)
    (hauth : req.auth = none) :
    (require_basic_auth_app cfg cpw now req s).1.1 = Outcome.noCredentials ∧
    (require_basic_auth_app cfg cpw now req s).1.2 =
      Decision.reject 401 "Authentication required" (some basicRealm) ∧
    (require_basic_auth_app cfg cpw now req s).2.failed_attempts =
      s.failed_attempts ∧
    ((require_basic_auth_app cfg cpw now req s).2.lockouts = s.lockouts ∨
      (∃ e, s.lockouts (client_ip req) = some e ∧ e ≠ 0 ∧ e ≤ now ∧
        (require_basic_auth_app cfg cpw now req s).2.lockouts =
          upd s.lockouts (client_ip req) none)) ∧
    (is_locked now (require_basic_auth_app cfg cpw now req s).2.lockouts
      (client_ip req)).1 = false := by
  rw [guard_app_noauth cfg cpw now req s hrl hlo hauth]
  refine ⟨rfl, rfl, rfl, ?_, ?_⟩
  · exact is_locked_snd_cases now s.lockouts (client_ip req)
  · rcases is_locked_snd_cases now s.lockouts (client_ip req) with h | ⟨e, _, _, _, h⟩
    · show (is_locked now (is_locked now s.lockouts (client_ip req)).2
        (client_ip req)).1 = false
      rw [h]
      exact hlo
    · show (is_locked now (is_locked now s.lockouts (client_ip req)).2
        (client_ip req)).1 = false
      rw [h]
      simp [is_locked, upd]

theorem C8_noauth_no_failure_witness :
    (require_basic_auth_app ⟨"admin", some [0], 5, 300, 60, 15⟩
        (fun _ _ => Except.ok false) 10
        ⟨none, some "3.3.3.3", none⟩
        ⟨fun _ => [], fun _ => none, fun _ => []⟩).1.1 = Outcome.noCredentials ∧
    (require_basic_auth_app ⟨"admin", some [0], 5, 300, 60, 15⟩
        (fun _ _ => Except.ok false) 10
        ⟨none, some "3.3.3.3", none⟩
        ⟨fun _ => [], fun _ => none, fun _ => []⟩).2.failed_attempts =
      (fun _ => []) := by
  have h := C8_noauth_no_failure ⟨"admin", some [0], 5, 300, 60, 15⟩
    (fun _ _ => Except.ok false) 10 ⟨none, some "3.3.3.3", none⟩
    ⟨fun _ => [], fun _ => none, fun _ => []⟩ (by rfl) (by rfl) rfl
  exact ⟨h.1, h.2.2.1⟩

/-! ### Sliding-window limiter lemmas -/

theorem runLimiter_length (cfg : Config) (w : List Int) (ts : List Int) :
    (runLimiter cfg w ts).1.length = ts.length := by
  induction ts generalizing w with
  | nil => rfl
  | cons t ts ih => simp [runLimiter, ih]

theorem take_succ_getD {α : Type} (d : α) :
    ∀ (l : List α) (i : Nat), i < l.length → l.take (i+1) = l.take i ++ [l.getD i d]
  | a :: l, 0, _ => rfl
  | a :: l, i+1, h => by
    have ih := take_succ_getD d l i (by simpa using h)
    calc (a :: l).take (i+2) = a :: l.take (i+1) := rfl
      _ = a :: (l.take i ++ [l.getD i d]) := by rw [ih]
      _ = (a :: l).take (i+1) ++ [(a :: l).getD (i+1) d] := by simp

theorem drop_getD_cons {α : Type} (d : α) :
    ∀ (l : List α) (i : Nat), i < l.length → l.drop i = l.getD i d :: l.drop (i+1)
  | _ :: _, 0, _ => rfl
  | a :: l, i+1, h => by
    have ih := drop_getD_cons d l i (by simpa using h)
    simpa using ih

theorem zip_take_self {α β : Type} :
    ∀ (l : List α) (l' : List β) (n : Nat),
      (l.take n).zip l' = (l.take n).zip (l'.take n)
  | _, _, 0 => by simp
  | [], _, _+1 => by simp
  | _ :: _, [], _+1 => by simp
  | a :: l, b :: l', n+1 => by
    simp [List.take_succ_cons, List.zip_cons_cons, zip_take_self l l' n]

theorem chain'_le_head_getD :
    ∀ (a : Int) (l : List Int), List.Chain' (fun x y => x ≤ y) (a :: l) →
      ∀ j, j < l.length → a ≤ l.getD j 0
  | _, [], _, j, hj => absurd hj (by simp)
  | _, _ :: _, h, 0, _ => (List.chain'_cons.mp h).1
  | a, b :: l, h, j+1, hj => by
    have h1 := (List.chain'_cons.mp h).1
    have h2 := (List.chain'_cons.mp h).2
    have h3 := chain'_le_head_getD b l h2 j (by simpa using hj)
    simpa using le_trans h1 h3

theorem chain'_getD_mono :
    ∀ (l : List Int), List.Chain' (fun x y => x ≤ y) l →
      ∀ i j, i ≤ j → j < l.length → l.getD i 0 ≤ l.getD j 0
  | [], _, _, j, _, hj => absurd hj (by simp)
  | _ :: _, _, 0, 0, _, _ => le_refl _
  | a :: l, h, 0, j+1, _, hj => by
    simpa using chain'_le_head_getD a l h j (by simpa using hj)
  | a :: l, h, i+1, j+1, hij, hj => by
    have h2 : List.Chain' (fun x y => x ≤ y) l := (List.chain'_cons'.mp h).2
    simpa using chain'_getD_mono l h2 i j (by omega) (by simpa using hj)
  | _ :: _, _, i+1, 0, hij, _ => absurd hij (by omega)

theorem window_pred_combine (W c t x : Int) (hct : c ≤ t) :
    (decide (t - x ≤ W) && decide (c - x ≤ W)) = decide (t - x ≤ W) := by
  by_cases h : t - x ≤ W
  · have hc : c - x ≤ W := by omega
    simp [h, hc]
  · simp [h]

theorem limiterStep_window (cfg : Config) (hist : List Int) (c t : Int)
    (hct : c ≤ t) :
    (limiterStep cfg (hist.filter (fun x => c - x ≤ cfg.RATE_LIMIT_WINDOW)) t).2 =
      (hist ++ [t]).filter (fun x => t - x ≤ cfg.RATE_LIMIT_WINDOW) := by
  show ((hist.filter (fun x => c - x ≤ cfg.RATE_LIMIT_WINDOW)) ++ [t]).filter
      (fun x => t - x ≤ cfg.RATE_LIMIT_WINDOW) = _
  rw [List.filter_append, List.filter_append, List.filter_filter]
  congr 1
  exact List.filter_congr
    (fun a _ => window_pred_combine cfg.RATE_LIMIT_WINDOW c t a hct)

theorem runLimiter_spec (cfg : Config) :
    ∀ (ts hist : List Int) (c : Int),
      List.Chain' (fun a b => a ≤ b) (c :: ts) →
      ∀ i, i < ts.length →
        (runLimiter cfg
          (hist.filter (fun x => c - x ≤ cfg.RATE_LIMIT_WINDOW)) ts).1.getD i false =
          decide (((hist ++ ts.take (i+1)).filter
            (fun x => ts.getD i 0 - x ≤ cfg.RATE_LIMIT_WINDOW)).length ≤
            cfg.RATE_LIMIT_MAX)
  | [], _, _, _, i, hi => absurd hi (by simp)
  | t :: ts, hist, c, hch, i, hi => by
    have hct : c ≤ t := (List.chain'_cons'.mp hch).1 t rfl
    have hch' : List.Chain' (fun a b => a ≤ b) (t :: ts) := (List.chain'_cons'.mp hch).2
    have hw := limiterStep_window cfg hist c t hct
    cases i with
    | zero =>
      have h1 : (runLimiter cfg
          (hist.filter (fun x => c - x ≤ cfg.RATE_LIMIT_WINDOW)) (t :: ts)).1.getD 0 false =
          decide (((limiterStep cfg
            (hist.filter (fun x => c - x ≤ cfg.RATE_LIMIT_WINDOW)) t).2).length ≤
            cfg.RATE_LIMIT_MAX) := rfl
      rw [h1, hw]
      rfl
    | succ i =>
      have hi' : i < ts.length := by simpa using hi
      have h1 : (runLimiter cfg
          (hist.filter (fun x => c - x ≤ cfg.RATE_LIMIT_WINDOW)) (t :: ts)).1.getD (i+1) false =
          (runLimiter cfg (limiterStep cfg
            (hist.filter (fun x => c - x ≤ cfg.RATE_LIMIT_WINDOW)) t).2 ts).1.getD i false := rfl
      rw [h1, hw]
      have ih := runLimiter_spec cfg ts (hist ++ [t]) t hch' i hi'
      simp only [List.append_assoc, List.singleton_append] at ih
      simp only [List.take_succ_cons, List.getD_cons_succ]
      exact ih

theorem runLimiter_flags (cfg : Config) (ts : List Int)
    (hmono : List.Chain' (fun a b => a ≤ b) ts) (i : Nat) (hi : i < ts.length) :
    (runLimiter cfg [] ts).1.getD i false =
      decide (((ts.take (i+1)).filter
        (fun x => ts.getD i 0 - x ≤ cfg.RATE_LIMIT_WINDOW)).length ≤
        cfg.RATE_LIMIT_MAX) := by
  have hch : List.Chain' (fun a b => a ≤ b) (ts.headD 0 :: ts) := by
    cases ts with
    | nil => simp
    | cons t ts' => exact List.chain'_cons.mpr ⟨le_refl t, hmono⟩
  have h := runLimiter_spec cfg ts [] (ts.headD 0) hch i hi
  simpa using h

theorem admitted_count_le (cfg : Config) (ts : List Int)
    (hmono : List.Chain' (fun a b => a ≤ b) ts) :
    ∀ i, i < ts.length →
      ((ts.take (i+1)).zip (runLimiter cfg [] ts).1).countP
        (fun p => p.2 && decide (ts.getD i 0 - p.1 ≤ cfg.RATE_LIMIT_WINDOW)) ≤
        cfg.RATE_LIMIT_MAX := by
  intro i
  induction i using Nat.strong_induction_on with
  | _ i ih =>
    intro hi
    have hlen : (runLimiter cfg [] ts).1.length = ts.length :=
      runLimiter_length cfg [] ts
    cases hb : (runLimiter cfg [] ts).1.getD i false with
    | true =>
      have hflag := runLimiter_flags cfg ts hmono i hi
      rw [hb] at hflag
      have hM := of_decide_eq_true hflag.symm
      have hle : (ts.take (i+1)).length ≤ (runLimiter cfg [] ts).1.length := by
        rw [List.length_take, hlen]
        exact min_le_right _ _
      have hcmp : (ts.take (i+1)).countP
          (fun x => decide (ts.getD i 0 - x ≤ cfg.RATE_LIMIT_WINDOW)) =
          ((ts.take (i+1)).zip (runLimiter cfg [] ts).1).countP
            (fun p => decide (ts.getD i 0 - p.1 ≤ cfg.RATE_LIMIT_WINDOW)) := by
        conv_lhs => rw [← List.map_fst_zip (ts.take (i+1)) (runLimiter cfg [] ts).1 hle]
        rw [List.countP_map]
        rfl
      calc ((ts.take (i+1)).zip (runLimiter cfg [] ts).1).countP
            (fun p => p.2 && decide (ts.getD i 0 - p.1 ≤ cfg.RATE_LIMIT_WINDOW))
          ≤ ((ts.take (i+1)).zip (runLimiter cfg [] ts).1).countP
            (fun p => decide (ts.getD i 0 - p.1 ≤ cfg.RATE_LIMIT_WINDOW)) := by
            apply List.countP_mono_left
            intro p _ hp
            simp only [Bool.and_eq_true] at hp
            exact hp.2
        _ = (ts.take (i+1)).countP
            (fun x => decide (ts.getD i 0 - x ≤ cfg.RATE_LIMIT_WINDOW)) := hcmp.symm
        _ = ((ts.take (i+1)).filter
            (fun x => ts.getD i 0 - x ≤ cfg.RATE_LIMIT_WINDOW)).length :=
            List.countP_eq_length_filter _ _
        _ ≤ cfg.RATE_LIMIT_MAX := hM
    | false =>
      have hts : ts.take (i+1) = ts.take i ++ [ts.getD i 0] := take_succ_getD 0 ts i hi
      have hzip : (ts.take (i+1)).zip (runLimiter cfg [] ts).1 =
          (ts.take i).zip ((runLimiter cfg [] ts).1.take i) ++
            [(ts.getD i 0, (runLimiter cfg [] ts).1.getD i false)] := by
        rw [hts]
        conv_lhs =>
          rw [← List.take_append_drop i (runLimiter cfg [] ts).1,
            drop_getD_cons false (runLimiter cfg [] ts).1 i (by omega)]
        rw [List.zip_append (by rw [List.length_take, List.length_take, hlen])]
        simp [List.zip_cons_cons]
      rw [hzip, List.countP_append]
      have h2 : ([(ts.getD i 0, (runLimiter cfg [] ts).1.getD i false)]).countP
          (fun p => p.2 && decide (ts.getD i 0 - p.1 ≤ cfg.RATE_LIMIT_WINDOW)) = 0 := by
        show (bif ((runLimiter cfg [] ts).1.getD i false &&
            decide (ts.getD i 0 - ts.getD i 0 ≤ cfg.RATE_LIMIT_WINDOW)) then 1 else 0) = 0
        rw [hb]
        rfl
      rw [h2, Nat.add_zero]
      rcases Nat.eq_zero_or_pos i with rfl | hpos
      · simp
      · obtain ⟨i', rfl⟩ : ∃ i', i = i' + 1 := ⟨i - 1, by omega⟩
        rw [← zip_take_self ts (runLimiter cfg [] ts).1 (i'+1)]
        have hmono' : ts.getD i' 0 ≤ ts.getD (i'+1) 0 :=
          chain'_getD_mono ts hmono i' (i'+1) (by omega) hi
        calc ((ts.take (i'+1)).zip (runLimiter cfg [] ts).1).countP
              (fun p => p.2 && decide (ts.getD (i'+1) 0 - p.1 ≤ cfg.RATE_LIMIT_WINDOW))
            ≤ ((ts.take (i'+1)).zip (runLimiter cfg [] ts).1).countP
              (fun p => p.2 && decide (ts.getD i' 0 - p.1 ≤ cfg.RATE_LIMIT_WINDOW)) := by
              apply List.countP_mono_left
              intro p _ hp
              simp only [Bool.and_eq_true, decide_eq_true_eq] at hp ⊢
              exact ⟨hp.1, by omega⟩
          _ ≤ cfg.RATE_LIMIT_MAX := ih i' (by omega) (by omega)

/-- C3: each `rate_limit_ok` call appends the current moment to the
identity's window, discards entries strictly older than `window_seconds`,
and only then compares the count (which includes the rejecting call itself)
to `max_requests`; over any monotone sequence of call times, at most
`max_requests` calls whose times lie within the trailing window of any call
are admitted, and a call that sees `max_requests + 1` calls (admitted or
not) inside its trailing window is rejected. -/
theorem C3_sliding_window_limit (cfg : Config) (now : Int)
    (rw : String → List Int) (ip : String) (ts : List Int)
    (hmono : List.Chain' (fun a b => a ≤ b) ts) :
    rate_limit_ok cfg now rw ip =
      (decide (((rw ip ++ [now]).filter
          (fun t => now - t ≤ cfg.RATE_LIMIT_WINDOW)).length ≤ cfg.RATE_LIMIT_MAX),
        upd rw ip ((rw ip ++ [now]).filter
          (fun t => now - t ≤ cfg.RATE_LIMIT_WINDOW))) ∧
    rate_limit_ok cfg now rw ip =
      ((limiterStep cfg (rw ip) now).1,
        upd rw ip (limiterStep cfg (rw ip) now).2) ∧
    (∀ i, i < ts.length →
      cfg.RATE_LIMIT_MAX + 1 ≤
        ((ts.take (i+1)).filter
          (fun x => ts.getD i 0 - x ≤ cfg.RATE_LIMIT_WINDOW)).length →
      (runLimiter cfg [] ts).1.getD i false = false) ∧
    (∀ i, i < ts.length →
      ((ts.take (i+1)).zip (runLimiter cfg [] ts).1).countP
        (fun p => p.2 && decide (ts.getD i 0 - p.1 ≤ cfg.RATE_LIMIT_WINDOW)) ≤
        cfg.RATE_LIMIT_MAX) := by
  refine ⟨rfl, rfl, ?_, admitted_count_le cfg ts hmono⟩
  intro i hi hover
  rw [runLimiter_flags cfg ts hmono i hi]
  exact decide_eq_false (by omega)

theorem C3_sliding_window_limit_witness :
    List.Chain' (fun a b => a ≤ b) ([0, 1, 2] : List Int) ∧
    (runLimiter ⟨"admin", some [0], 5, 300, 60, 2⟩ [] ([0, 1, 2] : List Int)).1.getD
      2 false = false := by
  have hch : List.Chain' (fun a b => a ≤ b) ([0, 1, 2] : List Int) := by
    norm_num [List.chain'_cons]
  refine ⟨hch, ?_⟩
  exact (C3_sliding_window_limit ⟨"admin", some [0], 5, 300, 60, 2⟩ 0
    (fun _ => []) "x" [0, 1, 2] hch).2.2.1 2 (by norm_num) (by decide)

end Portfolio
